import Mathlib

/-!
Verification development for a small web dashboard (two Python modules,
`storage.py` and `demo.py`) that caches an authenticated session for a
third-party booking service across three storage tiers: per-tab in-memory
storage, per-user server-side storage, and browser-local storage.

The embedding is shallow: each storage tier is an association list, the
stateful page handlers are explicit state-passing functions, and calls into
the external authentication/booking library are modelled by oracle
parameters (a successful call returns a value, a failing call is the
corresponding error constructor).
-/

/-! ### Association-list stores

`app.storage.user`, `app.storage.tab` and the browser's `localStorage` are
string-keyed dictionaries; we model each as an association list where an
update prepends the new binding and drops any previous binding of the key. -/

def storeGet {α : Type} : List (String × α) → String → Option α
  | [], _ => none
  | (k', v) :: rest, k => if k' = k then some v else storeGet rest k

def storeSet {α : Type} : List (String × α) → String → α → List (String × α)
  | [], k, v => [(k, v)]
  | (k', w) :: rest, k, v => if k' = k then (k, v) :: rest else (k', w) :: storeSet rest k v

theorem storeGet_storeSet_self {α : Type} (l : List (String × α)) (k : String) (v : α) :
    storeGet (storeSet l k v) k = some v := by
  induction l with
  | nil => simp [storeGet, storeSet]
  | cons p rest ih =>
    obtain ⟨pk, pv⟩ := p
    by_cases hp : pk = k
    · simp [storeSet, storeGet, hp]
    · simp [storeSet, storeGet, hp, ih]

theorem storeGet_storeSet_ne {α : Type} (l : List (String × α)) (k k' : String) (v : α)
    (h : k ≠ k') : storeGet (storeSet l k v) k' = storeGet l k' := by
  induction l with
  | nil => simp [storeGet, storeSet, h]
  | cons p rest ih =>
    obtain ⟨pk, pv⟩ := p
    by_cases hp : pk = k
    · subst hp
      have hne : ¬ pk = k' := h
      simp [storeSet, storeGet, hne]
    · by_cases hk' : pk = k'
      · subst hk'
        simp [storeSet, storeGet, hp]
      · simp [storeSet, storeGet, hp, hk', ih]

/-! ### JSON values and the browser-local storage text layer

`storage.py` writes to browser-local storage by emitting the JavaScript
statement `localStorage.setItem("<key>", <json.dumps(value)>)`. The second
argument is a JavaScript *expression*: the browser first evaluates the JSON
literal back to a value and then `setItem` coerces that value to a string
(WebIDL DOMString conversion). Reads call `localStorage.getItem` and then
`json.loads` on the returned text, falling back to the raw text when it does
not parse. We model JSON-serializable Python values with `JVal`
(non-integral numbers are carried as their lexical token, since their
numeric semantics is irrelevant here), the browser's string coercion with
`jsToString`, and `json.loads` with `loads`. -/

inductive JVal : Type where
  | null : JVal
  | bool : Bool → JVal
  | num : Int → JVal
  | float : String → JVal
  | str : String → JVal
  | arr : List JVal → JVal
  | obj : List (String × JVal) → JVal

def jsonDigitChar (n : Nat) : Char := Char.ofNat (48 + n)

def natToRevDigits (n : Nat) : List Char :=
  if h : n < 10 then [jsonDigitChar n]
  else jsonDigitChar (n % 10) :: natToRevDigits (n / 10)
decreasing_by exact Nat.div_lt_self (by omega) (by omega)

def natForwardDigits (n : Nat) : List Char := (natToRevDigits n).reverse

def natRepr (n : Nat) : String := String.mk (natForwardDigits n)

/-- Decimal rendering of an integer, as JavaScript renders an integral
number (`String(n)`). -/
def jsonIntStr (n : Int) : String :=
  if n < 0 then "-" ++ natRepr n.natAbs else natRepr n.natAbs

mutual

/-- String coercion `String(v)` the browser applies to the evaluated
`setItem` argument. The `num` case renders the exact decimal via
`jsonIntStr`; since JavaScript numbers are IEEE-754 doubles this is
faithful only for integers the double holds exactly (`|n| ≤ 2^53`, see
`jsExactInt` below) — larger integers would be rounded by the browser
before coercion, so every round-trip statement about integers is
restricted to that range. Non-integral numbers are carried by their
lexical form in the `float` case and coerced to exactly that form. -/
def jsToString : JVal → String
  | .null => "null"
  | .bool bv => cond bv "true" "false"
  | .num n => jsonIntStr n
  | .float tok => tok
  | .str s => s
  | .arr xs => jsJoin xs
  | .obj _ => "[object Object]"

def jsElemString : JVal → String
  | .null => ""
  | .bool bv => cond bv "true" "false"
  | .num n => jsonIntStr n
  | .float tok => tok
  | .str s => s
  | .arr xs => jsJoin xs
  | .obj _ => "[object Object]"

def jsJoin : List JVal → String
  | [] => ""
  | [v] => jsElemString v
  | v :: vs => jsElemString v ++ "," ++ jsJoin vs

end

def qchar : Char := Char.ofNat 34

def bslashChar : Char := Char.ofNat 92

def lbraceChar : Char := Char.ofNat 123

def rbraceChar : Char := Char.ofNat 125

def isDigitChar (c : Char) : Bool := 48 ≤ c.toNat && c.toNat ≤ 57

def digitVal (c : Char) : Nat := c.toNat - 48

def isJsonWs (c : Char) : Bool :=
  c.toNat = 32 || c.toNat = 9 || c.toNat = 10 || c.toNat = 13

def skipWs : List Char → List Char
  | [] => []
  | c :: cs => if isJsonWs c then skipWs cs else c :: cs

def isHexChar (c : Char) : Bool :=
  (48 ≤ c.toNat && c.toNat ≤ 57) || (97 ≤ c.toNat && c.toNat ≤ 102) ||
    (65 ≤ c.toNat && c.toNat ≤ 70)

def hexCharVal (c : Char) : Nat :=
  if 48 ≤ c.toNat && c.toNat ≤ 57 then c.toNat - 48
  else if 97 ≤ c.toNat then c.toNat - 87
  else c.toNat - 55

/-- Body of a JSON string literal (after the opening quote), JSON escape
rules as accepted by `json.loads`. -/
def parseStringBody : List Char → List Char → Option (String × List Char)
  | [], _ => none
  | c :: rest, acc =>
    if c = qchar then some (String.mk acc.reverse, rest)
    else if c = bslashChar then
      match rest with
      | [] => none
      | e :: rest2 =>
        if e = qchar then parseStringBody rest2 (qchar :: acc)
        else if e = bslashChar then parseStringBody rest2 (bslashChar :: acc)
        else if e = '/' then parseStringBody rest2 ('/' :: acc)
        else if e = 'b' then parseStringBody rest2 (Char.ofNat 8 :: acc)
        else if e = 'f' then parseStringBody rest2 (Char.ofNat 12 :: acc)
        else if e = 'n' then parseStringBody rest2 (Char.ofNat 10 :: acc)
        else if e = 'r' then parseStringBody rest2 (Char.ofNat 13 :: acc)
        else if e = 't' then parseStringBody rest2 (Char.ofNat 9 :: acc)
        else if e = 'u' then
          match rest2 with
          | h1 :: h2 :: h3 :: h4 :: rest3 =>
            if isHexChar h1 && isHexChar h2 && isHexChar h3 && isHexChar h4 then
              parseStringBody rest3
                (Char.ofNat (((hexCharVal h1 * 16 + hexCharVal h2) * 16 + hexCharVal h3) * 16 +
                  hexCharVal h4) :: acc)
            else none
          | _ => none
        else none
    else if c.toNat < 32 then none
    else parseStringBody rest (c :: acc)

def takeDigits : List Char → List Char × List Char
  | [] => ([], [])
  | c :: cs =>
    if isDigitChar c then
      let p := takeDigits cs
      (c :: p.1, p.2)
    else ([], c :: cs)

def digitsToNat (ds : List Char) : Nat := ds.foldl (fun a c => a * 10 + digitVal c) 0

def expectChars : List Char → List Char → Option (List Char)
  | [], cs => some cs
  | _ :: _, [] => none
  | e :: es, c :: cs => if c = e then expectChars es cs else none

/-- Fraction part of a JSON number: either absent or a dot followed by at
least one digit. Returns whether a fraction was seen. -/
def parseFracPart : List Char → Option (Bool × List Char)
  | '.' :: rest =>
    match takeDigits rest with
    | ([], _) => none
    | (_ :: _, rest2) => some (true, rest2)
  | cs => some (false, cs)

/-- Exponent part of a JSON number: either absent or `e`/`E`, an optional
sign, and at least one digit. Returns whether an exponent was seen. -/
def parseExpPart : List Char → Option (Bool × List Char)
  | [] => some (false, [])
  | c :: rest =>
    if c = 'e' ∨ c = 'E' then
      let rest1 := match rest with
        | s :: r2 => if s = '+' ∨ s = '-' then r2 else rest
        | [] => rest
      match takeDigits rest1 with
      | ([], _) => none
      | (_ :: _, rest2) => some (true, rest2)
    else some (false, c :: rest)

/-- A JSON number after an optional leading minus sign. `orig` is the full
token start, kept to carry the lexical form of non-integral numbers.
Python's `json.loads` additionally accepts `Infinity` here. -/
def parseNumAfterSign (neg : Bool) (orig cs1 : List Char) : Option (JVal × List Char) :=
  match cs1 with
  | [] => none
  | c :: _ =>
    if c = 'I' then
      match expectChars ['I', 'n', 'f', 'i', 'n', 'i', 't', 'y'] cs1 with
      | some rest => some (.float (cond neg "-Infinity" "Infinity"), rest)
      | none => none
    else
      match takeDigits cs1 with
      | ([], _) => none
      | (d :: ds, rest1) =>
        if d = jsonDigitChar 0 ∧ ds ≠ [] then none
        else
          match parseFracPart rest1 with
          | none => none
          | some (sawFrac, rest2) =>
            match parseExpPart rest2 with
            | none => none
            | some (sawExp, rest3) =>
              if sawFrac ∨ sawExp then
                some (.float (String.mk (orig.take (orig.length - rest3.length))), rest3)
              else
                some (.num (cond neg (-(digitsToNat (d :: ds) : Int)) (digitsToNat (d :: ds) : Int)),
                  rest3)

def parseNumber (cs : List Char) : Option (JVal × List Char) :=
  match cs with
  | [] => none
  | c :: rest =>
    if c = '-' then parseNumAfterSign true cs rest
    else parseNumAfterSign false cs (c :: rest)

/-- Modes of the single fueled JSON parsing loop: a value, the elements of
an array after `[`, or the members of an object after the opening brace. -/
inductive PMode : Type where
  | pv : PMode
  | pa : PMode
  | po : PMode

/-- One recursive JSON parser covering values, array tails and object
tails, fueled so that recursion is structural on the fuel. `accA`/`accO`
accumulate array elements / object members in reverse. -/
def parseStep : Nat → PMode → List Char → Bool → List JVal → List (String × JVal) →
    Option (JVal × List Char)
  | 0, _, _, _, _, _ => none
  | fuel + 1, .pv, cs, _, _, _ =>
    (match skipWs cs with
    | [] => none
    | c :: rest =>
      if c = '-' ∨ c = 'I' ∨ isDigitChar c then parseNumber (c :: rest)
      else if c = qchar then
        match parseStringBody rest [] with
        | some (s, rest2) => some (.str s, rest2)
        | none => none
      else if c = lbraceChar then parseStep fuel .po rest true [] []
      else if c = '[' then parseStep fuel .pa rest true [] []
      else if c = 't' then
        match expectChars ['r', 'u', 'e'] rest with
        | some rest2 => some (.bool true, rest2)
        | none => none
      else if c = 'f' then
        match expectChars ['a', 'l', 's', 'e'] rest with
        | some rest2 => some (.bool false, rest2)
        | none => none
      else if c = 'n' then
        match expectChars ['u', 'l', 'l'] rest with
        | some rest2 => some (.null, rest2)
        | none => none
      else if c = 'N' then
        match expectChars ['a', 'N'] rest with
        | some rest2 => some (.float "NaN", rest2)
        | none => none
      else none)
  | fuel + 1, .pa, cs, isFirst, accA, _ =>
    (match skipWs cs with
    | [] => none
    | c :: rest =>
      if c = ']' ∧ isFirst = true then some (.arr [], rest)
      else
        match parseStep fuel .pv (c :: rest) true [] [] with
        | none => none
        | some (v, rest2) =>
          match skipWs rest2 with
          | ',' :: rest3 => parseStep fuel .pa rest3 false (v :: accA) []
          | ']' :: rest3 => some (.arr (v :: accA).reverse, rest3)
          | _ => none)
  | fuel + 1, .po, cs, isFirst, _, accO =>
    (match skipWs cs with
    | [] => none
    | c :: rest =>
      if c = rbraceChar ∧ isFirst = true then some (.obj [], rest)
      else if c = qchar then
        match parseStringBody rest [] with
        | none => none
        | some (key, rest2) =>
          match skipWs rest2 with
          | ':' :: rest3 =>
            match parseStep fuel .pv rest3 true [] [] with
            | none => none
            | some (v, rest4) =>
              match skipWs rest4 with
              | ',' :: rest5 => parseStep fuel .po rest5 false [] ((key, v) :: accO)
              | c2 :: rest5 =>
                if c2 = rbraceChar then some (.obj ((key, v) :: accO).reverse, rest5) else none
              | [] => none
          | _ => none
      else none)

def parseVal (fuel : Nat) (cs : List Char) : Option (JVal × List Char) :=
  parseStep fuel .pv cs true [] []

/-- Model of Python's `json.loads` restricted to success/failure and the
parsed value: leading/trailing JSON whitespace is allowed, anything else
trailing is an error. -/
def loads (s : String) : Option JVal :=
  match parseVal (s.data.length + 1) s.data with
  | none => none
  | some (v, rest) =>
    match skipWs rest with
    | [] => some v
    | _ :: _ => none


theorem jsonDigitChar_isDigit : ∀ m : Fin 10, isDigitChar (jsonDigitChar m.val) = true := by decide

theorem digitVal_jsonDigitChar : ∀ m : Fin 10, digitVal (jsonDigitChar m.val) = m.val := by decide

theorem natToRevDigits_all_digits (n : Nat) : ∀ c ∈ natToRevDigits n, isDigitChar c = true := by
  induction n using Nat.strong_induction_on with
  | _ n ih =>
    by_cases h : n < 10
    · rw [natToRevDigits, dif_pos h]
      intro c hc
      simp only [List.mem_singleton] at hc
      subst hc
      exact jsonDigitChar_isDigit ⟨n, h⟩
    · rw [natToRevDigits, dif_neg h]
      intro c hc
      rcases List.mem_cons.mp hc with rfl | hc2
      · exact jsonDigitChar_isDigit ⟨n % 10, Nat.mod_lt _ (by omega)⟩
      · exact ih (n / 10) (Nat.div_lt_self (by omega) (by omega)) c hc2

theorem natForwardDigits_zero : natForwardDigits 0 = [jsonDigitChar 0] := by
  rw [natForwardDigits, natToRevDigits, dif_pos (by omega : (0 : Nat) < 10)]
  rfl

theorem natForwardDigits_cons (n : Nat) :
    ∃ d ds, natForwardDigits n = d :: ds ∧ isDigitChar d = true ∧
      (∀ c ∈ ds, isDigitChar c = true) ∧ (d = jsonDigitChar 0 → n = 0) := by
  induction n using Nat.strong_induction_on with
  | _ n ih =>
    by_cases h : n < 10
    · refine ⟨jsonDigitChar n, [], ?_, jsonDigitChar_isDigit ⟨n, h⟩, by simp, ?_⟩
      · rw [natForwardDigits, natToRevDigits, dif_pos h]; rfl
      · intro hz
        have := congrArg digitVal hz
        rw [digitVal_jsonDigitChar ⟨n, h⟩, digitVal_jsonDigitChar ⟨0, by omega⟩] at this
        exact this
    · obtain ⟨d, ds, hfd, hd, hds, hz⟩ := ih (n / 10) (Nat.div_lt_self (by omega) (by omega))
      refine ⟨d, ds ++ [jsonDigitChar (n % 10)], ?_, hd, ?_, ?_⟩
      · rw [natForwardDigits, natToRevDigits, dif_neg h]
        simp only [List.reverse_cons]
        rw [← natForwardDigits, hfd]
        rfl
      · intro c hc
        rcases List.mem_append.mp hc with hc1 | hc2
        · exact hds c hc1
        · simp only [List.mem_singleton] at hc2
          subst hc2
          exact jsonDigitChar_isDigit ⟨n % 10, Nat.mod_lt _ (by omega)⟩
      · intro hdz
        exact absurd (hz hdz) (by omega)

theorem takeDigits_all (ds : List Char) (h : ∀ c ∈ ds, isDigitChar c = true) :
    takeDigits ds = (ds, []) := by
  induction ds with
  | nil => rfl
  | cons c cs ih =>
    have hc : isDigitChar c = true := h c (by simp)
    have hrest := ih (fun c' hc' => h c' (by simp [hc']))
    simp [takeDigits, hc, hrest]

theorem digitsToNat_append (xs : List Char) (c : Char) :
    digitsToNat (xs ++ [c]) = digitsToNat xs * 10 + digitVal c := by
  simp [digitsToNat, List.foldl_append]

theorem digitsToNat_natForwardDigits (n : Nat) : digitsToNat (natForwardDigits n) = n := by
  induction n using Nat.strong_induction_on with
  | _ n ih =>
    by_cases h : n < 10
    · rw [natForwardDigits, natToRevDigits, dif_pos h]
      show digitsToNat [jsonDigitChar n] = n
      simp [digitsToNat, digitVal_jsonDigitChar ⟨n, h⟩]
    · rw [natForwardDigits, natToRevDigits, dif_neg h]
      simp only [List.reverse_cons]
      rw [← natForwardDigits, digitsToNat_append]
      rw [ih (n / 10) (Nat.div_lt_self (by omega) (by omega))]
      have hdv : digitVal (jsonDigitChar (n % 10)) = n % 10 :=
        digitVal_jsonDigitChar ⟨n % 10, Nat.mod_lt _ (by omega)⟩
      rw [hdv]
      omega

theorem isDigitChar_toNat {c : Char} (h : isDigitChar c = true) :
    48 ≤ c.toNat ∧ c.toNat ≤ 57 := by
  simp only [isDigitChar, Bool.and_eq_true, decide_eq_true_eq] at h
  omega

theorem digit_ne_of_toNat {c : Char} (h : isDigitChar c = true) (d : Char)
    (hd : d.toNat < 48 ∨ 57 < d.toNat) : ¬ c = d := by
  intro he
  have := isDigitChar_toNat h
  rw [he] at this
  omega

theorem parseNumAfterSign_digits (neg : Bool) (orig : List Char) (n : Nat) :
    parseNumAfterSign neg orig (natForwardDigits n) =
      some (.num (cond neg (-(n : Int)) (n : Int)), []) := by
  obtain ⟨d, ds, hfd, hd, hds, hz⟩ := natForwardDigits_cons n
  have hall : ∀ c ∈ d :: ds, isDigitChar c = true := by
    intro c hc
    rcases List.mem_cons.mp hc with rfl | hc2
    · exact hd
    · exact hds c hc2
  rw [hfd]
  have hdI : ¬ d = 'I' := digit_ne_of_toNat hd 'I' (by decide)
  simp only [parseNumAfterSign]
  rw [if_neg hdI]
  rw [takeDigits_all (d :: ds) hall]
  have hlz : ¬ (d = jsonDigitChar 0 ∧ ds ≠ []) := by
    rintro ⟨h1, h2⟩
    have hn0 := hz h1
    subst hn0
    rw [natForwardDigits_zero] at hfd
    injection hfd with _ h3
    exact h2 h3.symm
  simp only [hlz, if_false, reduceIte]
  show some (JVal.num (cond neg (-(digitsToNat (d :: ds) : Int)) (digitsToNat (d :: ds) : Int)),
      ([] : List Char)) =
    some (JVal.num (cond neg (-(n : Int)) (n : Int)), [])
  rw [← hfd, digitsToNat_natForwardDigits]

theorem parseNumber_natForward (n : Nat) :
    parseNumber (natForwardDigits n) = some (.num (n : Int), []) := by
  obtain ⟨d, ds, hfd, hd, _, _⟩ := natForwardDigits_cons n
  rw [hfd]
  simp only [parseNumber]
  rw [if_neg (digit_ne_of_toNat hd '-' (by decide))]
  have := parseNumAfterSign_digits false (d :: ds) n
  rw [hfd] at this
  exact this

theorem parseNumber_negForward (n : Nat) :
    parseNumber ('-' :: natForwardDigits n) = some (.num (-(n : Int)), []) := by
  simp only [parseNumber, if_pos rfl]
  exact parseNumAfterSign_digits true ('-' :: natForwardDigits n) n

theorem isJsonWs_digit {c : Char} (h : isDigitChar c = true) : isJsonWs c = false := by
  have := isDigitChar_toNat h
  simp only [isJsonWs, Bool.or_eq_false_iff, decide_eq_false_iff_not]
  omega

theorem parseVal_natForward (fuel : Nat) (n : Nat) :
    parseVal (fuel + 1) (natForwardDigits n) = some (.num (n : Int), []) := by
  obtain ⟨d, ds, hfd, hd, _, _⟩ := natForwardDigits_cons n
  rw [hfd]
  have hws : skipWs (d :: ds) = d :: ds := by rw [skipWs, isJsonWs_digit hd]; simp
  simp only [parseVal, parseStep, hws, hd, or_true, if_true]
  have := parseNumber_natForward n
  rw [hfd] at this
  exact this

theorem parseVal_negForward (fuel : Nat) (n : Nat) :
    parseVal (fuel + 1) ('-' :: natForwardDigits n) = some (.num (-(n : Int)), []) := by
  have hws : skipWs ('-' :: natForwardDigits n) = '-' :: natForwardDigits n := by
    rw [skipWs]; simp [isJsonWs]
  simp only [parseVal, parseStep, hws]
  rw [if_pos (Or.inl trivial)]
  exact parseNumber_negForward n

/-- Parsing the decimal text the browser stores for an integral number
recovers the integer: `json.loads` inverts the browser's number-to-string
coercion on integers. -/
theorem loads_jsonIntStr (n : Int) : loads (jsonIntStr n) = some (.num n) := by
  by_cases h : n < 0
  · have hdata : (jsonIntStr n).data = '-' :: natForwardDigits n.natAbs := by
      simp only [jsonIntStr, if_pos h, natRepr]
      rfl
    simp only [loads, hdata]
    rw [parseVal_negForward]
    have : -((n.natAbs : Nat) : Int) = n := by omega
    rw [this]
    rfl
  · have hdata : (jsonIntStr n).data = natForwardDigits n.natAbs := by
      simp only [jsonIntStr, if_neg h, natRepr]
    simp only [loads, hdata]
    rw [parseVal_natForward]
    have : ((n.natAbs : Nat) : Int) = n := by omega
    rw [this]
    rfl

/-! ### External library model (`otf_api`)

`OtfUser` and `Otf` are opaque objects from the external booking-API
client. We model only the structure the repository observes: a user carries
an opaque token bundle (`get_tokens()`) and a device identifier; a session
(`Otf`) carries its user; `Otf.hydrate(**hydration_dict, device_key=...)`
rebuilds a session from a hydration snapshot plus a device key, and
`get_hydration_dict()` produces such a snapshot. Fallible external calls
(`OtfUser.login`, `OtfUser.from_token`) are modelled by oracle parameters
at the call sites. -/

structure Tokens : Type where
  items : List (String × String)
deriving DecidableEq

structure OtfUser : Type where
  tokens : Tokens
  device_key : String
deriving DecidableEq

def OtfUser.get_tokens (u : OtfUser) : Tokens := u.tokens

structure HydrationDict : Type where
  tokens : Tokens
deriving DecidableEq

structure Otf : Type where
  user : OtfUser
deriving DecidableEq

def Otf.get_hydration_dict (o : Otf) : HydrationDict := ⟨o.user.tokens⟩

def Otf.hydrate (h : HydrationDict) (device_key : String) : Otf := ⟨⟨h.tokens, device_key⟩⟩

def Otf.create (u : OtfUser) : Otf := ⟨u⟩

/-- Values the program stores in the server-side tiers (`app.storage.user`
and `app.storage.tab`). -/
inductive Value : Type where
  | str : String → Value
  | bool : Bool → Value
  | tokens : Tokens → Value
  | userObj : OtfUser → Value
  | otfObj : Otf → Value
  | hyd : HydrationDict → Value
deriving DecidableEq

/-- Python truthiness of a stored value, used by
`if not app.storage.user.get("authenticated")` and
`if app.storage.user.get("authenticated", False)`. -/
def Value.truthy : Value → Bool
  | .str s => s != ""
  | .bool bv => bv
  | .tokens tk => tk.items != []
  | .userObj _ => true
  | .otfObj _ => true
  | .hyd _ => true

/-- The device key stored in tab storage as used by
`Otf.hydrate(..., device_key=app.storage.tab["device_key"])`. The program
only ever stores strings under that key (in fact it never writes it to the
tab tier at all, see the reachability theorem below). -/
def Value.asDeviceKey : Value → String
  | .str s => s
  | _ => ""

/-- The full observable state: the three storage tiers, the route the UI
was last navigated to, and the notifications shown so far (message, color),
most recent first. -/
structure AppState : Type where
  userStore : List (String × Value)
  tabStore : List (String × Value)
  localStore : List (String × String)
  route : String
  notifications : List (String × String)
deriving DecidableEq

def initState : AppState :=
  { userStore := [], tabStore := [], localStore := [], route := "/", notifications := [] }

def navigate_to (r : String) (s : AppState) : AppState := { s with route := r }

def notify (msg color : String) (s : AppState) : AppState :=
  { s with notifications := (msg, color) :: s.notifications }

/-! ### `storage.py` -/

/-- Model of `LocalStorage.set_item(key, value)`: emits
`localStorage.setItem("key", json.dumps(value))`; the browser evaluates the
JSON literal back to the value and `setItem` stores its string coercion. -/
def LocalStorage.set_item (k : String) (v : JVal) (s : AppState) : AppState :=
  { s with localStore := storeSet s.localStore k (jsToString v) }

/-- Model of `LocalStorage.get_item(key)`: reads the stored text and best-effort
decodes it with `json.loads`, returning the raw value when it does not
parse. A missing key yields JavaScript `null`, i.e. Python `None`
(`json.loads(None)` raises `TypeError`, which the `except` clause returns
as the raw `None`). -/
def LocalStorage.get_item (k : String) (s : AppState) : JVal :=
  match storeGet s.localStore k with
  | none => .null
  | some txt =>
    match loads txt with
    | some v => v
    | none => .str txt

/-- Model of `LocalStorage.clear()`. -/
def LocalStorage.clear (s : AppState) : AppState := { s with localStore := [] }

/-- Model of `app.storage.user.clear()`. -/
def AppState.clearUserStore (s : AppState) : AppState := { s with userStore := [] }

/-- Model of `app.storage.tab.clear()`. -/
def AppState.clearTabStore (s : AppState) : AppState := { s with tabStore := [] }

/-- Model of `add_user_to_storage(user)`: token bundle into user storage, device key
into browser-local storage, live user object into tab storage. -/
def add_user_to_storage (user : OtfUser) (s : AppState) : AppState :=
  let s1 := { s with userStore := storeSet s.userStore "tokens" (.tokens user.get_tokens) }
  let s2 := LocalStorage.set_item "device_key" (.str user.device_key) s1
  { s2 with tabStore := storeSet s2.tabStore "user" (.userObj user) }

/-- Model of `add_otf_to_storage(otf)`: live session into tab storage, device key
into browser-local storage, hydration snapshot into user storage. -/
def add_otf_to_storage (otf : Otf) (s : AppState) : AppState :=
  let s1 := { s with tabStore := storeSet s.tabStore "otf" (.otfObj otf) }
  let s2 := LocalStorage.set_item "device_key" (.str otf.user.device_key) s1
  { s2 with userStore := storeSet s2.userStore "otf_hydration_dict" (.hyd otf.get_hydration_dict) }

/-- Model of `clear_all_storage()`: user storage, then tab storage, then
browser-local storage. -/
def clear_all_storage (s : AppState) : AppState :=
  LocalStorage.clear (AppState.clearTabStore (AppState.clearUserStore s))

/-! ### `demo.py` -/

def expiredMsg : String := "Your token has expired, please log in again"

/-- Model of `logout()`: clear all storage, then navigate to the login route. -/
def logout (s : AppState) : AppState := navigate_to "/login" (clear_all_storage s)

/-- Model of `get_user()`. The oracle `fromToken` models
`OtfUser.from_token(**tokens, device_key=device_key)`; `none` is a
`TokenVerificationException`. A missing `"tokens"` key in user storage
raises `KeyError`, which the same `except (TokenVerificationException,
KeyError)` clause handles: notification, then `logout()`. -/
def get_user (fromToken : Tokens → JVal → Option OtfUser) (s : AppState) :
    Option OtfUser × AppState :=
  match storeGet s.tabStore "user" with
  | some (.userObj u) => (some u, s)
  | _ =>
    match storeGet s.userStore "tokens" with
    | some (.tokens tk) =>
      match fromToken tk (LocalStorage.get_item "device_key" s) with
      | some u => (some u, { s with tabStore := storeSet s.tabStore "user" (.userObj u) })
      | none => (none, logout (notify expiredMsg "negative" s))
    | _ => (none, logout (notify expiredMsg "negative" s))

/-- Third branch of `get_user`'s caller `get_otf`: resolve a user
credential and build a brand-new session from it, or navigate to the login
route when no user can be resolved. -/
def get_otf_fresh (fromToken : Tokens → JVal → Option OtfUser) (s : AppState) :
    Option Otf × AppState :=
  match get_user fromToken s with
  | (some user, s1) => (some (Otf.create user), add_otf_to_storage (Otf.create user) s1)
  | (none, s1) => (none, navigate_to "/login" s1)

/-- Second and third branch of `get_otf`, reached when no tab-cached
session exists: hydrate from the user-scoped blob plus the tab-scoped
device key when both are present, else fall through to `get_otf_fresh`. -/
def get_otf_try_hydrate (fromToken : Tokens → JVal → Option OtfUser) (s : AppState) :
    Option Otf × AppState :=
  match storeGet s.userStore "otf_hydration_dict", storeGet s.tabStore "device_key" with
  | some (.hyd h), some dkv =>
    (some (Otf.hydrate h dkv.asDeviceKey), add_otf_to_storage (Otf.hydrate h dkv.asDeviceKey) s)
  | _, _ => get_otf_fresh fromToken s

/-- Model of `get_otf()`: tab-cached session, else hydration from the user-scoped
blob plus the tab-scoped device key, else a fresh session via `get_user`. -/
def get_otf (fromToken : Tokens → JVal → Option OtfUser) (s : AppState) :
    Option Otf × AppState :=
  match storeGet s.tabStore "otf" with
  | some (.otfObj o) => (some o, s)
  | _ => get_otf_try_hydrate fromToken s

/-- Outcome of the external `OtfUser.login(username, password)` call inside
`try_login`. -/
inductive LoginOutcome : Type where
  | success : OtfUser → LoginOutcome
  | tokenVerificationError : LoginOutcome
  | otherError : LoginOutcome

/-- Truthiness of `app.storage.user.get("authenticated")` interpreted as a Python truth
value. -/
def authTruthy (s : AppState) : Bool :=
  match storeGet s.userStore "authenticated" with
  | some v => v.truthy
  | none => false

/-- Model of `app.storage.user.get("referrer_path", "/upcoming_classes")`, the
navigation target expression of `try_login`'s success path. The program
(its auth middleware) only ever stores a path string under
`"referrer_path"`. The expression is evaluated by the source only on the
line after `await add_user_to_storage(user)`, which always raises, so the
program never actually navigates there (see `try_login`). -/
def referrerTarget (s : AppState) : String :=
  match storeGet s.userStore "referrer_path" with
  | some (.str r) => r
  | _ => "/upcoming_classes"

/-- Model of `try_login()` from the login page: when the user is not already
marked authenticated, attempt the external login. When the external call
succeeds, the handler updates `username` and `authenticated` and calls
`await add_user_to_storage(user)` — but `add_user_to_storage` is a plain
synchronous function returning `None`: the call itself runs to completion
(all three storage writes happen), and the `await None` then raises
`TypeError`. That `TypeError` is caught by the handler's own
`except Exception` clause, which shows the generic "Wrong username or
password" notification; the `ui.navigate.to(...)` on the next line is never
reached, so the success path performs no navigation. On a
token-verification failure of the login call: notify and flip
`authenticated` off. On any other failure of the login call itself: notify
"Wrong username or password" with no storage writes. -/
def try_login (outcome : LoginOutcome) (uname : String) (s : AppState) : AppState :=
  if authTruthy s then s
  else
    match outcome with
    | .success user =>
      let s1 := { s with
        userStore := storeSet (storeSet s.userStore "username" (.str uname)) "authenticated"
          (.bool true) }
      let s2 := add_user_to_storage user s1
      notify "Wrong username or password" "negative" s2
    | .tokenVerificationError =>
      let s1 := notify expiredMsg "negative" s
      { s1 with userStore := storeSet s1.userStore "authenticated" (.bool false) }
    | .otherError => notify "Wrong username or password" "negative" s

/-- The inline logout button on the home page (`main_page`):
`app.storage.user.clear()` followed by navigation to `/login` — it clears
only the user-scoped tier. -/
def main_page_logout_click (s : AppState) : AppState :=
  navigate_to "/login" { s with userStore := [] }

/-! ### The classes page row transformation -/

structure Coach : Type where
  first_name : String
  name : String
deriving DecidableEq

structure Studio : Type where
  name : String
deriving DecidableEq

structure ClassType : Type where
  name : String
deriving DecidableEq

/-- The local start time of a class as observed through
`strftime("%Y-%m-%d")` and `strftime("%H:%M")`. -/
structure LocalDateTime : Type where
  year : Nat
  month : Nat
  day : Nat
  hour : Nat
  minute : Nat
deriving DecidableEq

def pad2 (n : Nat) : String := if n < 10 then "0" ++ natRepr n else natRepr n

def pad4 (n : Nat) : String :=
  if n < 10 then "000" ++ natRepr n
  else if n < 100 then "00" ++ natRepr n
  else if n < 1000 then "0" ++ natRepr n
  else natRepr n

/-- Model of `starts_at_local.strftime("%Y-%m-%d")`. -/
def fmtDate (d : LocalDateTime) : String := pad4 d.year ++ "-" ++ pad2 d.month ++ "-" ++ pad2 d.day

/-- Model of `starts_at_local.strftime("%H:%M")`. -/
def fmtTime (d : LocalDateTime) : String := pad2 d.hour ++ ":" ++ pad2 d.minute

/-- The fields of an `otf_api` class record that the `/classes` page reads. -/
structure ClassRecord : Type where
  day_of_week : String
  starts_at_local : LocalDateTime
  duration : Nat
  name : String
  coach : Coach
  studio : Studio
  class_type : ClassType
  is_booked : Bool
  waitlist_available : Bool
  is_home_studio : Bool
deriving DecidableEq

/-- A display cell of the classes table. -/
inductive Cell : Type where
  | str : String → Cell
  | nat : Nat → Cell
  | bool : Bool → Cell
deriving DecidableEq

/-- One row of the `/classes` table, exactly the dict literal built in the
`classes` page handler. -/
def classRow (c : ClassRecord) : List (String × Cell) :=
  [("Day Of Week", .str c.day_of_week),
   ("Start Date", .str (fmtDate c.starts_at_local)),
   ("Start Time", .str (fmtTime c.starts_at_local)),
   ("Duration", .nat c.duration),
   ("Class Name", .str c.name),
   ("Coach Name", .str c.coach.first_name),
   ("Studio Name", .str c.studio.name),
   ("Class Type", .str c.class_type.name),
   ("Is Booked", .bool c.is_booked),
   ("Waitlist Available", .bool c.waitlist_available),
   ("Home Studio", .bool c.is_home_studio)]

/-- The `rows` list the `classes` page hands to the data grid. -/
def classesRows (cs : List ClassRecord) : List (List (String × Cell)) := cs.map classRow

/-- The eleven display field names of the classes table, in row order. -/
def classFieldNames : List String :=
  ["Day Of Week", "Start Date", "Start Time", "Duration", "Class Name", "Coach Name",
   "Studio Name", "Class Type", "Is Booked", "Waitlist Available", "Home Studio"]

/-! ### The program's storage operations as a step relation

Used to state reachability invariants: each constructor is one of the
storage-affecting operations the program itself can perform (UI handlers
and the resolver chain, with arbitrary oracle outcomes). -/

inductive Step : AppState → AppState → Prop where
  | logoutStep (s : AppState) : Step s (logout s)
  | mainPageLogout (s : AppState) : Step s (main_page_logout_click s)
  | clearAll (s : AppState) : Step s (clear_all_storage s)
  | addUser (u : OtfUser) (s : AppState) : Step s (add_user_to_storage u s)
  | addOtf (o : Otf) (s : AppState) : Step s (add_otf_to_storage o s)
  | getUserStep (f : Tokens → JVal → Option OtfUser) (s : AppState) : Step s (get_user f s).2
  | getOtfStep (f : Tokens → JVal → Option OtfUser) (s : AppState) : Step s (get_otf f s).2
  | tryLoginStep (o : LoginOutcome) (uname : String) (s : AppState) :
      Step s (try_login o uname s)

/-- States reachable from the fresh-start state through the program's own
storage operations. -/
inductive Reachable : AppState → Prop where
  | init : Reachable initState
  | step {s t : AppState} : Reachable s → Step s t → Reachable t

/-! ### Helper lemmas about the operations -/

theorem add_user_to_storage_tabStore (u : OtfUser) (s : AppState) :
    (add_user_to_storage u s).tabStore = storeSet s.tabStore "user" (.userObj u) := rfl

theorem add_otf_to_storage_tabStore (o : Otf) (s : AppState) :
    (add_otf_to_storage o s).tabStore = storeSet s.tabStore "otf" (.otfObj o) := rfl

theorem get_user_tabStore_cases (f : Tokens → JVal → Option OtfUser) (s : AppState) :
    (get_user f s).2.tabStore = s.tabStore ∨
    (∃ u, (get_user f s).2.tabStore = storeSet s.tabStore "user" (.userObj u)) ∨
    (get_user f s).2.tabStore = [] := by
  unfold get_user
  split
  · exact Or.inl rfl
  · split
    · split
      · exact Or.inr (Or.inl ⟨_, rfl⟩)
      · exact Or.inr (Or.inr rfl)
    · exact Or.inr (Or.inr rfl)

theorem get_otf_tabStore_cases (f : Tokens → JVal → Option OtfUser) (s : AppState) :
    (get_otf f s).2.tabStore = s.tabStore ∨
    (∃ o, (get_otf f s).2.tabStore = storeSet s.tabStore "otf" (.otfObj o)) ∨
    (∃ o, (get_otf f s).2.tabStore = storeSet (get_user f s).2.tabStore "otf" (.otfObj o)) ∨
    (get_otf f s).2.tabStore = (get_user f s).2.tabStore := by
  unfold get_otf
  split
  · exact Or.inl rfl
  · unfold get_otf_try_hydrate
    split
    · exact Or.inr (Or.inl ⟨_, rfl⟩)
    · unfold get_otf_fresh
      split
      · next user s1 heq =>
        refine Or.inr (Or.inr (Or.inl ⟨Otf.create user, ?_⟩))
        rw [add_otf_to_storage_tabStore, heq]
      · next s1 heq =>
        refine Or.inr (Or.inr (Or.inr ?_))
        rw [heq]
        rfl

theorem try_login_tabStore_cases (o : LoginOutcome) (uname : String) (s : AppState) :
    (try_login o uname s).tabStore = s.tabStore ∨
    ∃ u, (try_login o uname s).tabStore = storeSet s.tabStore "user" (.userObj u) := by
  unfold try_login
  split
  · exact Or.inl rfl
  · cases o with
    | success u => exact Or.inr ⟨u, rfl⟩
    | tokenVerificationError => exact Or.inl rfl
    | otherError => exact Or.inl rfl

theorem step_preserves_noTabDeviceKey {s t : AppState} (hst : Step s t)
    (hs : storeGet s.tabStore "device_key" = none) :
    storeGet t.tabStore "device_key" = none := by
  cases hst with
  | logoutStep s => rfl
  | mainPageLogout s => exact hs
  | clearAll s => rfl
  | addUser u s =>
    rw [add_user_to_storage_tabStore, storeGet_storeSet_ne _ _ _ _ (by decide)]
    exact hs
  | addOtf o s =>
    rw [add_otf_to_storage_tabStore, storeGet_storeSet_ne _ _ _ _ (by decide)]
    exact hs
  | getUserStep f s =>
    rcases get_user_tabStore_cases f s with h1 | ⟨u, h1⟩ | h1
    · rw [h1]; exact hs
    · rw [h1, storeGet_storeSet_ne _ _ _ _ (by decide)]; exact hs
    · rw [h1]; rfl
  | getOtfStep f s =>
    have hu : storeGet (get_user f s).2.tabStore "device_key" = none := by
      rcases get_user_tabStore_cases f s with h1 | ⟨u, h1⟩ | h1
      · rw [h1]; exact hs
      · rw [h1, storeGet_storeSet_ne _ _ _ _ (by decide)]; exact hs
      · rw [h1]; rfl
    rcases get_otf_tabStore_cases f s with h1 | ⟨o, h1⟩ | ⟨o, h1⟩ | h1
    · rw [h1]; exact hs
    · rw [h1, storeGet_storeSet_ne _ _ _ _ (by decide)]; exact hs
    · rw [h1, storeGet_storeSet_ne _ _ _ _ (by decide)]; exact hu
    · rw [h1]; exact hu
  | tryLoginStep o uname s =>
    rcases try_login_tabStore_cases o uname s with h1 | ⟨u, h1⟩
    · rw [h1]; exact hs
    · rw [h1, storeGet_storeSet_ne _ _ _ _ (by decide)]; exact hs

theorem reachable_noTabDeviceKey {s : AppState} (h : Reachable s) :
    storeGet s.tabStore "device_key" = none := by
  induction h with
  | init => rfl
  | step _ hst ih => exact step_preserves_noTabDeviceKey hst ih

/-! ### Claim theorems -/

/-- Claim C4: `clear_all_storage` clears the user-scoped store, then the
tab-scoped store, then browser-local storage, in that order, and afterwards
a lookup of any key in any of the three tiers returns absent. -/
theorem clear_all_storage_order_and_empty (s : AppState) (k : String) :
    clear_all_storage s =
      LocalStorage.clear (AppState.clearTabStore (AppState.clearUserStore s)) ∧
    storeGet (clear_all_storage s).userStore k = none ∧
    storeGet (clear_all_storage s).tabStore k = none ∧
    storeGet (clear_all_storage s).localStore k = none :=
  ⟨rfl, rfl, rfl, rfl⟩

/-- Concrete session objects used in the claim-C6 counterexample state. -/
def otfC6 : Otf := ⟨⟨⟨[("access_token", "tok")]⟩, "dk"⟩⟩

/-- A logged-in state: user tier marks authentication, tab tier caches the
live session, browser-local tier holds the device key. -/
def stateC6 : AppState :=
  { userStore := [("authenticated", .bool true), ("username", .str "alice")],
    tabStore := [("otf", .otfObj otfC6)],
    localStore := [("device_key", "dk")],
    route := "/",
    notifications := [] }

/-- Claim C6 counterexample: the home page's logout button
(`app.storage.user.clear()` then navigate) is a UI logout operation that
clears only the user-scoped tier: afterwards the user store is empty while
the tab tier still holds the live session and the browser-local tier still
holds the device key — an observable partially-cleared state. -/
theorem main_page_logout_partial_clear :
    (main_page_logout_click stateC6).userStore = [] ∧
    storeGet (main_page_logout_click stateC6).tabStore "otf" = some (.otfObj otfC6) ∧
    storeGet (main_page_logout_click stateC6).localStore "device_key" = some "dk" :=
  ⟨rfl, rfl, rfl⟩

/-- Claim C6 amended: the header/footer logout button (`logout()`) clears
all three tiers within one handler transition and navigates to the login
page, so it exposes no partial state to the UI; the home page's inline
logout button, however, clears only the user-scoped tier and then
navigates to the login page with the tab tier (live `user`/`otf` objects)
and the browser-local tier (`device_key`) left exactly as they were —
a UI-observable state in which some tiers are cleared and others still
hold session data. -/
theorem logout_buttons_amended (s : AppState) (k : String) :
    storeGet (logout s).userStore k = none ∧
    storeGet (logout s).tabStore k = none ∧
    storeGet (logout s).localStore k = none ∧
    (logout s).route = "/login" ∧
    (main_page_logout_click s).userStore = [] ∧
    (main_page_logout_click s).tabStore = s.tabStore ∧
    (main_page_logout_click s).localStore = s.localStore ∧
    (main_page_logout_click s).route = "/login" :=
  ⟨rfl, rfl, rfl, rfl, rfl, rfl, rfl, rfl⟩

/-- Concrete user whose accepted login triggers the `TypeError` path in the
claim-C7 evaluation. -/
def userC7 : OtfUser := ⟨⟨[("access_token", "tok7")]⟩, "dk7"⟩

/-- Claim C7 (code bug): the claim requires every exception other than a
token-verification failure to be caught with the generic notification and
*no storage mutation*. The `TypeError` raised by
`await add_user_to_storage(user)` (a synchronous function, demo.py line
220) is exactly such an exception, and it violates the claim: evaluated at
the failing input — fresh unauthenticated state, login accepted as "alice"
— the handler catches it and shows the generic "Wrong username or
password" notification, but only after the attempt has already written to
all three storage tiers. -/
theorem try_login_typeerror_mutates_storage :
    (try_login (.success userC7) "alice" initState).notifications =
      [("Wrong username or password", "negative")] ∧
    (try_login (.success userC7) "alice" initState).userStore ≠ initState.userStore ∧
    (try_login (.success userC7) "alice" initState).tabStore ≠ initState.tabStore ∧
    (try_login (.success userC7) "alice" initState).localStore ≠ initState.localStore := by
  refine ⟨rfl, ?_, ?_, ?_⟩ <;> decide

/-- Claim C8: for every input list of class records, the classes-page row
transformation produces exactly as many rows as records; every row consists
of exactly the eleven documented display fields in order, and the
`Is Booked` and `Waitlist Available` fields carry the source booleans
unchanged. -/
theorem classes_rows_shape (cs : List ClassRecord) :
    (classesRows cs).length = cs.length ∧
    classFieldNames.length = 11 ∧
    (classesRows cs).map (fun r => r.map Prod.fst) = cs.map (fun _ => classFieldNames) ∧
    (classesRows cs).map (fun r => storeGet r "Is Booked") =
      cs.map (fun c => some (.bool c.is_booked)) ∧
    (classesRows cs).map (fun r => storeGet r "Waitlist Available") =
      cs.map (fun c => some (.bool c.waitlist_available)) := by
  refine ⟨by simp [classesRows], rfl, ?_, ?_, ?_⟩
  · induction cs with
    | nil => rfl
    | cons c rest ih =>
      simp only [classesRows, List.map_cons] at ih ⊢
      rw [ih]
      rfl
  · induction cs with
    | nil => rfl
    | cons c rest ih =>
      simp only [classesRows, List.map_cons] at ih ⊢
      rw [ih]
      rfl
  · induction cs with
    | nil => rfl
    | cons c rest ih =>
      simp only [classesRows, List.map_cons] at ih ⊢
      rw [ih]
      rfl

/-- Concrete user returned by the accepted login call in the claim-C1
evaluation. -/
def userC1 : OtfUser := ⟨⟨[("id_token", "tok")]⟩, "dk"⟩

/-- Claim C1 (code bug): at the claimed input — fresh unauthenticated
state, username "alice", login accepted with a non-empty token bundle —
the handler does store `authenticated = true`, `username = "alice"` and
the non-empty token bundle, but it never navigates:
`await add_user_to_storage(user)` (demo.py line 220) raises `TypeError`
immediately after the storage writes, the `except Exception` clause shows
"Wrong username or password", and the `ui.navigate.to(...)` line is
unreachable. The route stays at its prior value instead of becoming the
claimed referrer-or-`/upcoming_classes` target. -/
theorem try_login_success_alice_never_navigates :
    storeGet (try_login (.success userC1) "alice" initState).userStore "authenticated" =
      some (.bool true) ∧
    storeGet (try_login (.success userC1) "alice" initState).userStore "username" =
      some (.str "alice") ∧
    storeGet (try_login (.success userC1) "alice" initState).userStore "tokens" =
      some (.tokens userC1.tokens) ∧
    userC1.tokens.items ≠ [] ∧
    (try_login (.success userC1) "alice" initState).route = initState.route ∧
    (try_login (.success userC1) "alice" initState).route ≠ referrerTarget initState ∧
    (try_login (.success userC1) "alice" initState).notifications =
      [("Wrong username or password", "negative")] := by
  refine ⟨rfl, rfl, rfl, ?_, rfl, ?_, rfl⟩ <;> decide

/-- Claim C2: when `get_user` reaches the token path (no tab-cached user)
and the external token verification fails, the resulting state has all
three storage tiers empty, the active route is the login page, and the
"token expired" notification was shown; `get_user` returns no user. -/
theorem get_user_token_failure (f : Tokens → JVal → Option OtfUser) (s : AppState) (tk : Tokens)
    (h1 : storeGet s.tabStore "user" = none)
    (h2 : storeGet s.userStore "tokens" = some (.tokens tk))
    (h3 : f tk (LocalStorage.get_item "device_key" s) = none) :
    (get_user f s).1 = none ∧
    (get_user f s).2.userStore = [] ∧
    (get_user f s).2.tabStore = [] ∧
    (get_user f s).2.localStore = [] ∧
    (get_user f s).2.route = "/login" ∧
    (expiredMsg, "negative") ∈ (get_user f s).2.notifications := by
  simp only [get_user, h1, h2, h3, logout, notify, clear_all_storage, LocalStorage.clear,
    AppState.clearTabStore, AppState.clearUserStore, navigate_to]
  simp

/-- Stored token bundle for the claim-C2 witness. -/
def tokensC2 : Tokens := ⟨[("id_token", "expired")]⟩

/-- State for the claim-C2 witness: stored tokens and a device key, but no
tab-cached user. -/
def stateC2 : AppState :=
  { initState with
    userStore := [("tokens", .tokens tokensC2)],
    localStore := [("device_key", "dk")] }

/-- Claim C2 witness: a failing verification oracle on the concrete state
empties every tier and lands on the login route. -/
theorem get_user_token_failure_witness :
    (get_user (fun _ _ => none) stateC2).2.userStore = [] ∧
    (get_user (fun _ _ => none) stateC2).2.tabStore = [] ∧
    (get_user (fun _ _ => none) stateC2).2.localStore = [] ∧
    (get_user (fun _ _ => none) stateC2).2.route = "/login" := by
  have h := get_user_token_failure (fun _ _ => none) stateC2 tokensC2 rfl rfl rfl
  exact ⟨h.2.1, h.2.2.1, h.2.2.2.1, h.2.2.2.2.1⟩

/-- Claim C3: with a user-scoped hydration blob and a tab-scoped device
key present but no tab-cached session, `get_otf` reconstructs the session
via `Otf.hydrate`, persists it into the tab tier, and returns it; a second
`get_otf` call on the resulting state returns the same session directly
from the tab tier without further change. -/
theorem get_otf_hydration_then_cached (f : Tokens → JVal → Option OtfUser) (s : AppState)
    (hd : HydrationDict) (dk : String)
    (h1 : storeGet s.tabStore "otf" = none)
    (h2 : storeGet s.userStore "otf_hydration_dict" = some (.hyd hd))
    (h3 : storeGet s.tabStore "device_key" = some (.str dk)) :
    get_otf f s = (some (Otf.hydrate hd dk), add_otf_to_storage (Otf.hydrate hd dk) s) ∧
    storeGet (add_otf_to_storage (Otf.hydrate hd dk) s).tabStore "otf" =
      some (.otfObj (Otf.hydrate hd dk)) ∧
    get_otf f (add_otf_to_storage (Otf.hydrate hd dk) s) =
      (some (Otf.hydrate hd dk), add_otf_to_storage (Otf.hydrate hd dk) s) := by
  have htab : storeGet (add_otf_to_storage (Otf.hydrate hd dk) s).tabStore "otf" =
      some (.otfObj (Otf.hydrate hd dk)) := by
    rw [add_otf_to_storage_tabStore, storeGet_storeSet_self]
  refine ⟨?_, htab, ?_⟩
  · simp only [get_otf, get_otf_try_hydrate, h1, h2, h3, Value.asDeviceKey]
  · simp only [get_otf, htab]

/-- Hydration blob and state for the claim-C3 witness. -/
def hydC3 : HydrationDict := ⟨⟨[("token", "cached")]⟩⟩

/-- State for the claim-C3 witness: hydration blob in the user tier and a
device key in the tab tier, no tab-cached session. -/
def stateC3 : AppState :=
  { initState with
    userStore := [("otf_hydration_dict", .hyd hydC3)],
    tabStore := [("device_key", .str "dk")] }

/-- Claim C3 witness on a concrete state. -/
theorem get_otf_hydration_then_cached_witness :
    get_otf (fun _ _ => none) stateC3 =
      (some (Otf.hydrate hydC3 "dk"), add_otf_to_storage (Otf.hydrate hydC3 "dk") stateC3) ∧
    get_otf (fun _ _ => none) (add_otf_to_storage (Otf.hydrate hydC3 "dk") stateC3) =
      (some (Otf.hydrate hydC3 "dk"), add_otf_to_storage (Otf.hydrate hydC3 "dk") stateC3) := by
  have h := get_otf_hydration_then_cached (fun _ _ => none) stateC3 hydC3 "dk" rfl rfl rfl
  exact ⟨h.1, h.2.2⟩

/-- State for the claim-C5 counterexample: everything missing except a
browser-local device key (so the storage clear is observable). -/
def stateC5 : AppState := { initState with localStore := [("device_key", "dk")] }

/-- Claim C5 counterexample: with the tab-cached user and the user-scoped
`"tokens"` key both absent, the `"tokens"` lookup in `get_user` does not
silently fall through: the `KeyError` is handled like a token-verification
failure, producing a user-visible notification and mutating storage (the
browser-local tier is cleared). -/
theorem get_user_missing_tokens_not_silent :
    storeGet stateC5.tabStore "user" = none ∧
    storeGet stateC5.userStore "tokens" = none ∧
    (get_user (fun _ _ => none) stateC5).2.notifications =
      [(expiredMsg, "negative")] ∧
    (get_user (fun _ _ => none) stateC5).2.localStore = [] ∧
    stateC5.localStore ≠ [] := by
  refine ⟨rfl, rfl, rfl, rfl, ?_⟩
  decide

/-- Claim C5 amended: missing keys in the tab-session lookup, either side
of the hydration-blob/device-key guard (a missing blob as well as a missing
tab device key with the blob present), the tab-user lookup, and the
browser-local device-key lookup are treated as not-found and fall through
to the next stage with no storage mutation and no notification from the
lookup itself; a missing `"tokens"` key in user-scoped storage, however, is
handled like a token-verification failure (notification, full storage
clear, redirect to login) rather than falling through silently. -/
theorem missing_key_lookup_fallthrough (f : Tokens → JVal → Option OtfUser) (s : AppState)
    (u : OtfUser) (tk : Tokens) :
    (storeGet s.tabStore "otf" = none → storeGet s.userStore "otf_hydration_dict" = none →
      get_otf f s = get_otf_fresh f s) ∧
    (storeGet s.tabStore "otf" = none → storeGet s.tabStore "device_key" = none →
      get_otf f s = get_otf_fresh f s) ∧
    (storeGet s.tabStore "user" = none → storeGet s.localStore "device_key" = none →
      storeGet s.userStore "tokens" = some (.tokens tk) → f tk .null = some u →
      get_user f s = (some u, { s with tabStore := storeSet s.tabStore "user" (.userObj u) })) ∧
    (storeGet s.tabStore "user" = none → storeGet s.userStore "tokens" = none →
      get_user f s = (none, logout (notify expiredMsg "negative" s))) := by
  refine ⟨?_, ?_, ?_, ?_⟩
  · intro h1 h2
    simp only [get_otf, get_otf_try_hydrate, h1, h2]
  · intro h1 h2
    simp only [get_otf, get_otf_try_hydrate, h1, h2]
    rcases storeGet s.userStore "otf_hydration_dict" with _ | w
    · rfl
    · cases w <;> rfl
  · intro h1 h2 h3 h4
    have hdk : LocalStorage.get_item "device_key" s = .null := by
      simp only [LocalStorage.get_item, h2]
    simp only [get_user, h1, h3, hdk, h4]
  · intro h1 h2
    simp only [get_user, h1, h2]

/-- Credential objects for the claim-C5 witness. -/
def tokensC5 : Tokens := ⟨[("id_token", "ok")]⟩

/-- Concrete user for the claim-C5 witness. -/
def userC5 : OtfUser := ⟨tokensC5, "dk"⟩

/-- State for the claim-C5 witness: stored tokens but no browser-local
device key and no tab-cached user. -/
def stateC5b : AppState := { initState with userStore := [("tokens", .tokens tokensC5)] }

/-- State for the claim-C5 witness guard leg: a hydration blob is present
in user storage but tab storage has no device key (and no session). -/
def stateC5c : AppState :=
  { initState with userStore := [("otf_hydration_dict", .hyd ⟨tokensC5⟩)] }

/-- Claim C5 amended witness: the four legs instantiated at concrete
states. -/
theorem missing_key_lookup_fallthrough_witness :
    get_otf (fun _ _ => none) initState = get_otf_fresh (fun _ _ => none) initState ∧
    get_otf (fun _ _ => none) stateC5c = get_otf_fresh (fun _ _ => none) stateC5c ∧
    get_user (fun _ _ => some userC5) stateC5b =
      (some userC5,
        { stateC5b with tabStore := storeSet stateC5b.tabStore "user" (.userObj userC5) }) ∧
    get_user (fun _ _ => none) initState =
      (none, logout (notify expiredMsg "negative" initState)) := by
  refine ⟨?_, ?_, ?_, ?_⟩
  · exact (missing_key_lookup_fallthrough (fun _ _ => none) initState userC5 tokensC5).1 rfl rfl
  · exact (missing_key_lookup_fallthrough (fun _ _ => none) stateC5c userC5 tokensC5).2.1
      rfl rfl
  · exact (missing_key_lookup_fallthrough (fun _ _ => some userC5) stateC5b userC5
      tokensC5).2.2.1 rfl rfl rfl rfl
  · exact (missing_key_lookup_fallthrough (fun _ _ => none) initState userC5 tokensC5).2.2.2
      rfl rfl

/-- Claim C9 counterexample: write-then-read does not round-trip for every
JSON-serializable value. Storing the *string* "true" emits
`localStorage.setItem("k", "true")`; the browser stores the four characters
`true`, and the read-side `json.loads` then parses them as the *boolean*
true. -/
theorem local_storage_roundtrip_fails :
    LocalStorage.get_item "k" (LocalStorage.set_item "k" (.str "true") initState) =
      .bool true ∧ JVal.str "true" ≠ JVal.bool true := by
  constructor
  · have h : jsToString (.str "true") = "true" := by simp [jsToString]
    simp only [LocalStorage.set_item, h]
    rfl
  · intro h
    cases h

/-- The sub-universe of `JVal` on which the amended round-trip is stated:
scalars (null, booleans, numbers, strings) — everything except arrays and
objects. -/
def JVal.scalarShape : JVal → Prop
  | .null => True
  | .bool _ => True
  | .num _ => True
  | .float _ => True
  | .str _ => True
  | _ => False

/-- Integers that a JavaScript number (an IEEE-754 double) represents
exactly. The model's `JVal.num` is a faithful model of the browser-side
value only in this range: beyond it the browser rounds, so round-trip
statements about integers are restricted to it. -/
def jsExactInt (n : Int) : Prop := n.natAbs ≤ 2 ^ 53

/-- Claim C9 amended: `get_item` returns the JSON-decoded value when the
stored text parses as JSON and the raw stored value otherwise (this is its
definition), and write-then-read round-trips on the scalars: null,
booleans, integers in the range a JavaScript double holds exactly
(`jsExactInt`), non-integral numbers whose lexical form re-parses to
itself (e.g. `1.5`), and strings whose own text does not parse as JSON. A
string that itself parses as JSON comes back as the decoded value (see the
counterexample), and arrays and objects are coerced by the browser to
joined element text / `[object Object]` rather than JSON, so they are not
in the round-trip set. -/
theorem local_storage_roundtrip_amended (k : String) (v : JVal) (s : AppState)
    (hv : v.scalarShape)
    (hnum : ∀ n, v = .num n → jsExactInt n)
    (hfloat : ∀ tok, v = .float tok → loads tok = some (.float tok))
    (hstr : ∀ t, v = .str t → loads t = none) :
    LocalStorage.get_item k (LocalStorage.set_item k v s) = v := by
  cases v with
  | null =>
    have h : jsToString JVal.null = "null" := by simp [jsToString]
    simp only [LocalStorage.set_item, LocalStorage.get_item, h, storeGet_storeSet_self]
    rfl
  | bool bv =>
    cases bv with
    | true =>
      have h : jsToString (JVal.bool true) = "true" := by simp [jsToString]
      simp only [LocalStorage.set_item, LocalStorage.get_item, h, storeGet_storeSet_self]
      rfl
    | false =>
      have h : jsToString (JVal.bool false) = "false" := by simp [jsToString]
      simp only [LocalStorage.set_item, LocalStorage.get_item, h, storeGet_storeSet_self]
      rfl
  | num n =>
    have h : jsToString (JVal.num n) = jsonIntStr n := by simp [jsToString]
    simp only [LocalStorage.set_item, LocalStorage.get_item, h, storeGet_storeSet_self,
      loads_jsonIntStr]
  | float tok =>
    have h : jsToString (JVal.float tok) = tok := by simp [jsToString]
    simp only [LocalStorage.set_item, LocalStorage.get_item, h, storeGet_storeSet_self,
      hfloat tok rfl]
  | str t =>
    have h : jsToString (JVal.str t) = t := by simp [jsToString]
    simp only [LocalStorage.set_item, LocalStorage.get_item, h, storeGet_storeSet_self,
      hstr t rfl]
  | arr xs => exact hv.elim
  | obj kvs => exact hv.elim

/-- Claim C9 amended witness: a plain string, a small integer and the
non-integral number `1.5` round-trip. -/
theorem local_storage_roundtrip_amended_witness :
    LocalStorage.get_item "k" (LocalStorage.set_item "k" (.str "hello") initState) =
      .str "hello" ∧
    LocalStorage.get_item "n" (LocalStorage.set_item "n" (.num 42) initState) = .num 42 ∧
    LocalStorage.get_item "x" (LocalStorage.set_item "x" (.float "1.5") initState) =
      .float "1.5" := by
  refine ⟨?_, ?_, ?_⟩
  · exact local_storage_roundtrip_amended "k" (.str "hello") initState trivial
      (fun n hn => nomatch hn) (fun tok htok => nomatch htok) (fun t ht => by cases ht; rfl)
  · exact local_storage_roundtrip_amended "n" (.num 42) initState trivial
      (fun n hn => by cases hn; unfold jsExactInt; decide) (fun tok htok => nomatch htok)
      (fun t ht => nomatch ht)
  · exact local_storage_roundtrip_amended "x" (.float "1.5") initState trivial
      (fun n hn => nomatch hn) (fun tok htok => by cases htok; rfl)
      (fun t ht => nomatch ht)

/-- Spec-side variant of `get_otf` with the hydration branch removed, used
to state that the branch is dead from reachable states. -/
def get_otf_no_hydration (fromToken : Tokens → JVal → Option OtfUser) (s : AppState) :
    Option Otf × AppState :=
  match storeGet s.tabStore "otf" with
  | some (.otfObj o) => (some o, s)
  | _ => get_otf_fresh fromToken s

/-- Claim C10: no program operation ever writes `"device_key"` into
tab-scoped storage, so in every state reachable through the program's own
storage operations that key is absent from the tab tier, and `get_otf`
coincides with its hydration-branch-free variant — the hydration branch is
never taken from such a state. -/
theorem reachable_no_tab_device_key (s : AppState) (h : Reachable s) :
    storeGet s.tabStore "device_key" = none ∧
    ∀ f, get_otf f s = get_otf_no_hydration f s := by
  have hd := reachable_noTabDeviceKey h
  refine ⟨hd, fun f => ?_⟩
  unfold get_otf get_otf_no_hydration
  have helse : get_otf_try_hydrate f s = get_otf_fresh f s := by
    unfold get_otf_try_hydrate
    rw [hd]
    rcases storeGet s.userStore "otf_hydration_dict" with _ | w
    · rfl
    · cases w <;> rfl
  rw [helse]

/-- Claim C10 witness: the invariant and the branch elimination at the
fresh-start state. -/
theorem reachable_no_tab_device_key_witness :
    storeGet initState.tabStore "device_key" = none ∧
    get_otf (fun _ _ => none) initState =
      get_otf_no_hydration (fun _ _ => none) initState := by
  have h := reachable_no_tab_device_key initState Reachable.init
  exact ⟨h.1, h.2 (fun _ _ => none)⟩
